import Mathlib

/-!
Shallow embedding of the snake-game engine from the repository's React
source file (`App` component): constants, `getRandomPosition`,
`moveSnake`, `updateGame`, `handleKeyPress`, `startGame`, and the mount
draw effect. `Math.random()` is modelled as an externally supplied pair
of rationals in `[0, 1)` consumed at each sampling point; the canvas 2D
context is modelled as a list of draw events.
-/

namespace Snake

/-- `const CANVAS_SIZE = 400`. -/
def CANVAS_SIZE : Int := 400

/-- `const GRID_SIZE = 20`. -/
def GRID_SIZE : Int := 20

/-- A `{ x, y }` coordinate object as used for snake segments, food and
directions in the source. -/
structure Cell where
  x : Int
  y : Int
deriving DecidableEq, Repr

instance : Inhabited Cell := ⟨⟨0, 0⟩⟩

/-- The component state: `snakeRef.current`, `foodRef.current`,
`directionRef.current`, and the React state cells `score`, `gameOver`,
`isPlaying`. -/
structure GameState where
  snake : List Cell
  food : Cell
  direction : Cell
  score : Nat
  gameOver : Bool
  isPlaying : Bool
deriving DecidableEq, Repr

/-- The coarse lifecycle phase, derived from the two booleans the code
keeps: `isPlaying` true means `Running`; otherwise `gameOver` decides
between `Over` and `Idle`. -/
inductive Phase where
  | Idle
  | Running
  | Over
deriving DecidableEq, Repr

def GameState.phase (s : GameState) : Phase :=
  if s.isPlaying then .Running else if s.gameOver then .Over else .Idle

/-- A pair of `Math.random()` draws (one for `x`, one for `y`). -/
def Rand := ℚ × ℚ

/-- `Math.random()` returns a value in `[0, 1)`. -/
def InUnit (r : Rand) : Prop :=
  0 ≤ r.1 ∧ r.1 < 1 ∧ 0 ≤ r.2 ∧ r.2 < 1

/-- `getRandomPosition`: `Math.floor(Math.random() * (CANVAS_SIZE / GRID_SIZE))`
for each coordinate. -/
def getRandomPosition (r : Rand) : Cell :=
  { x := ⌊r.1 * ((CANVAS_SIZE : ℚ) / (GRID_SIZE : ℚ))⌋
    y := ⌊r.2 * ((CANVAS_SIZE : ℚ) / (GRID_SIZE : ℚ))⌋ }

/-- The head the snake would move to: `snake[0]` shifted by the current
direction (`head.x += directionRef.current.x` etc.). -/
def nextHead (s : GameState) : Cell :=
  { x := s.snake.headI.x + s.direction.x
    y := s.snake.headI.y + s.direction.y }

/-- `moveSnake()`: compute the shifted head; on a wall or body hit set
`gameOver`, clear `isPlaying` and stop; otherwise `unshift` the head,
then either eat (increment score, resample food) or `pop` the tail. -/
def moveSnake (s : GameState) (r : Rand) : GameState :=
  if (nextHead s).x < 0 ∨ (nextHead s).y < 0 ∨
      (nextHead s).x ≥ CANVAS_SIZE / GRID_SIZE ∨ (nextHead s).y ≥ CANVAS_SIZE / GRID_SIZE ∨
      (∃ seg ∈ s.snake, seg.x = (nextHead s).x ∧ seg.y = (nextHead s).y) then
    { s with gameOver := true, isPlaying := false }
  else if (nextHead s).x = s.food.x ∧ (nextHead s).y = s.food.y then
    { s with
      snake := nextHead s :: s.snake
      score := s.score + 1
      food := getRandomPosition r }
  else
    { s with snake := (nextHead s :: s.snake).dropLast }

/-- Fill colors used by the draw helpers. -/
inductive Color where
  | green
  | red
deriving DecidableEq, Repr

/-- One call on the canvas 2D context. -/
inductive DrawEvent where
  | clearRect (x y w h : Int)
  | fillRect (c : Color) (x y w h : Int)
deriving DecidableEq, Repr

/-- `drawSnake(ctx)`: one green `fillRect` per segment, in body order. -/
def drawSnake (snake : List Cell) : List DrawEvent :=
  snake.map fun seg =>
    .fillRect .green (seg.x * GRID_SIZE) (seg.y * GRID_SIZE) GRID_SIZE GRID_SIZE

/-- `drawFood(ctx)`: one red `fillRect` at the food cell. -/
def drawFood (food : Cell) : List DrawEvent :=
  [.fillRect .red (food.x * GRID_SIZE) (food.y * GRID_SIZE) GRID_SIZE GRID_SIZE]

/-- `updateGame()`: clear the canvas, draw the snake, draw the food, then
call `moveSnake()`. Returns the draw events issued by this callback and
the state after it. -/
def updateGame (s : GameState) (r : Rand) : List DrawEvent × GameState :=
  (DrawEvent.clearRect 0 0 CANVAS_SIZE CANVAS_SIZE ::
      (drawSnake s.snake ++ drawFood s.food),
    moveSnake s r)

/-- The keys `handleKeyPress` reacts to; anything else falls through the
`switch`. -/
inductive Key where
  | ArrowUp
  | ArrowDown
  | ArrowLeft
  | ArrowRight
  | Other
deriving DecidableEq, Repr

/-- `handleKeyPress(e)`: ignore input unless playing; an arrow key
overwrites `directionRef.current` with its unit vector, guarded only by
the perpendicular-axis test on the current value (`direction.y === 0`
for vertical keys, `direction.x === 0` for horizontal keys). -/
def handleKeyPress (s : GameState) (k : Key) : GameState :=
  if s.isPlaying = false then s
  else
    match k with
    | .ArrowUp => if s.direction.y = 0 then { s with direction := ⟨0, -1⟩ } else s
    | .ArrowDown => if s.direction.y = 0 then { s with direction := ⟨0, 1⟩ } else s
    | .ArrowLeft => if s.direction.x = 0 then { s with direction := ⟨-1, 0⟩ } else s
    | .ArrowRight => if s.direction.x = 0 then { s with direction := ⟨1, 0⟩ } else s
    | .Other => s

/-- The unit vector an arrow key requests, `none` for other keys. -/
def keyDir : Key → Option Cell
  | .ArrowUp => some ⟨0, -1⟩
  | .ArrowDown => some ⟨0, 1⟩
  | .ArrowLeft => some ⟨-1, 0⟩
  | .ArrowRight => some ⟨1, 0⟩
  | .Other => none

/-- `startGame()`: reset the snake to `[(10,10)]`, the direction to
`(1,0)`, resample the food, zero the score, clear `gameOver`, set
`isPlaying`. -/
def startGame (_s : GameState) (r : Rand) : GameState :=
  { snake := [⟨10, 10⟩]
    direction := ⟨1, 0⟩
    food := getRandomPosition r
    score := 0
    gameOver := false
    isPlaying := true }

/-- The initial component state before any interaction: refs as
initialised at lines 15-17, React state `score = 0`, `gameOver = false`,
`isPlaying = false`. -/
def initState : GameState :=
  { snake := [⟨10, 10⟩]
    food := ⟨15, 15⟩
    direction := ⟨1, 0⟩
    score := 0
    gameOver := false
    isPlaying := false }

/-- The mount `useEffect`: draw the snake and the food of the initial
state (no clear). -/
def mountDraw : List DrawEvent :=
  drawSnake initState.snake ++ drawFood initState.food

/-- A cell lies on the `N × N` grid, `N = CANVAS_SIZE / GRID_SIZE = 20`. -/
def inGrid (c : Cell) : Prop :=
  0 ≤ c.x ∧ c.x < 20 ∧ 0 ≤ c.y ∧ c.y < 20

instance (c : Cell) : Decidable (inGrid c) := by unfold inGrid; infer_instance

/-- States reachable from a `startGame` call through any interleaving of
key presses and ticks. Ticks only happen while `isPlaying` (the interval
is cleared whenever the game stops), and every `Math.random()` draw lies
in `[0, 1)`. -/
inductive Reachable : GameState → Prop
  | start (s : GameState) (r : Rand) (hr : InUnit r) : Reachable (startGame s r)
  | key (s : GameState) (k : Key) (h : Reachable s) : Reachable (handleKeyPress s k)
  | tick (s : GameState) (r : Rand) (hr : InUnit r) (hp : s.isPlaying = true)
      (h : Reachable s) : Reachable (moveSnake s r)

example : moveSnake { initState with isPlaying := true } (1/2, 1/2) =
    { initState with isPlaying := true, snake := [⟨11, 10⟩] } := by decide

example : getRandomPosition (0, 0) = ⟨0, 0⟩ := by
  simp [getRandomPosition]

/-! ### Helper lemmas -/

lemma mem_iff_exists_xy (c : Cell) (l : List Cell) :
    (∃ seg ∈ l, seg.x = c.x ∧ seg.y = c.y) ↔ c ∈ l := by
  constructor
  · rintro ⟨seg, hm, hx, hy⟩
    have hseg : seg = c := by cases seg; cases c; simp_all
    rwa [hseg] at hm
  · intro hm
    exact ⟨c, hm, rfl, rfl⟩

lemma collision_iff (s : GameState) :
    ((nextHead s).x < 0 ∨ (nextHead s).y < 0 ∨
      (nextHead s).x ≥ CANVAS_SIZE / GRID_SIZE ∨ (nextHead s).y ≥ CANVAS_SIZE / GRID_SIZE ∨
      (∃ seg ∈ s.snake, seg.x = (nextHead s).x ∧ seg.y = (nextHead s).y)) ↔
      (¬ inGrid (nextHead s) ∨ nextHead s ∈ s.snake) := by
  rw [mem_iff_exists_xy]
  by_cases hm : nextHead s ∈ s.snake <;>
    simp [hm, inGrid, CANVAS_SIZE, GRID_SIZE] <;> omega

lemma inGrid_getRandomPosition (r : Rand) (hr : InUnit r) :
    inGrid (getRandomPosition r) := by
  obtain ⟨h1, h2, h3, h4⟩ := hr
  unfold getRandomPosition inGrid CANVAS_SIZE GRID_SIZE
  norm_num
  refine ⟨Int.floor_nonneg.mpr (mul_nonneg h1 (by norm_num)), ?_,
    Int.floor_nonneg.mpr (mul_nonneg h3 (by norm_num)), ?_⟩
  · exact Int.floor_lt.mpr (by push_cast; nlinarith)
  · exact Int.floor_lt.mpr (by push_cast; nlinarith)

lemma getRandomPosition_surj (c : Cell) (hc : inGrid c) :
    ∃ r : Rand, InUnit r ∧ getRandomPosition r = c := by
  obtain ⟨cx, cy⟩ := c
  obtain ⟨hx0, hx, hy0, hy⟩ := hc
  refine ⟨((cx : ℚ) / 20, (cy : ℚ) / 20), ⟨?_, ?_, ?_, ?_⟩, ?_⟩
  · exact div_nonneg (by exact_mod_cast hx0) (by norm_num)
  · exact (div_lt_one (by norm_num)).mpr (by exact_mod_cast hx)
  · exact div_nonneg (by exact_mod_cast hy0) (by norm_num)
  · exact (div_lt_one (by norm_num)).mpr (by exact_mod_cast hy)
  · unfold getRandomPosition CANVAS_SIZE GRID_SIZE
    norm_num [Cell.mk.injEq, div_mul_cancel₀, Int.floor_intCast]

lemma handleKeyPress_fields (s : GameState) (k : Key) :
    (handleKeyPress s k).snake = s.snake ∧ (handleKeyPress s k).food = s.food ∧
    (handleKeyPress s k).score = s.score ∧ (handleKeyPress s k).gameOver = s.gameOver ∧
    (handleKeyPress s k).isPlaying = s.isPlaying := by
  unfold handleKeyPress
  split
  · exact ⟨rfl, rfl, rfl, rfl, rfl⟩
  · cases k <;> dsimp only <;>
      first
      | exact ⟨rfl, rfl, rfl, rfl, rfl⟩
      | (split <;> exact ⟨rfl, rfl, rfl, rfl, rfl⟩)

/-- The state invariant maintained by the engine: the snake is
duplicate-free, nonempty, one longer than the score, and every snake
cell and the food lie on the grid. -/
def Inv (s : GameState) : Prop :=
  s.snake.Nodup ∧ 1 ≤ s.snake.length ∧ s.score + 1 = s.snake.length ∧
    (∀ c ∈ s.snake, inGrid c) ∧ inGrid s.food

lemma Inv_startGame (s : GameState) (r : Rand) (hr : InUnit r) :
    Inv (startGame s r) := by
  refine ⟨by simp [startGame], by simp [startGame], by simp [startGame], ?_,
    inGrid_getRandomPosition r hr⟩
  intro c hc
  simp only [startGame, List.mem_singleton] at hc
  subst hc
  unfold inGrid
  norm_num

lemma Inv_moveSnake (s : GameState) (r : Rand) (hr : InUnit r) (hs : Inv s) :
    Inv (moveSnake s r) := by
  obtain ⟨hnd, hlen, hsc, hcells, hfood⟩ := hs
  unfold moveSnake
  split
  · exact ⟨hnd, hlen, hsc, hcells, hfood⟩
  · rename_i hcol
    rw [collision_iff] at hcol
    push_neg at hcol
    obtain ⟨hin, hmem⟩ := hcol
    have hnd1 : (nextHead s :: s.snake).Nodup := List.nodup_cons.mpr ⟨hmem, hnd⟩
    have hcells1 : ∀ c ∈ nextHead s :: s.snake, inGrid c := by
      intro c hc
      rcases List.mem_cons.mp hc with h | h
      · subst h; exact hin
      · exact hcells c h
    split
    · exact ⟨hnd1, by simp, by simpa using hsc, hcells1,
        inGrid_getRandomPosition r hr⟩
    · refine ⟨List.Nodup.sublist (List.dropLast_prefix _).sublist hnd1, ?_, ?_, ?_, hfood⟩
      · simp only [List.length_dropLast, List.length_cons]
        omega
      · simp only [List.length_dropLast, List.length_cons]
        omega
      · intro c hc
        exact hcells1 c ((List.dropLast_prefix _).subset hc)

lemma reachable_inv {s : GameState} (h : Reachable s) : Inv s := by
  induction h with
  | start s r hr => exact Inv_startGame s r hr
  | key s k _ ih =>
    obtain ⟨h1, h2, h3, _, _⟩ := handleKeyPress_fields s k
    simp only [Inv, h1, h2, h3]
    exact ih
  | tick s r hr hp _ ih => exact Inv_moveSnake s r hr ih

lemma no_collision_cond (s : GameState) (hin : inGrid (nextHead s))
    (hnc : nextHead s ∉ s.snake) :
    ¬ ((nextHead s).x < 0 ∨ (nextHead s).y < 0 ∨
      (nextHead s).x ≥ CANVAS_SIZE / GRID_SIZE ∨ (nextHead s).y ≥ CANVAS_SIZE / GRID_SIZE ∨
      (∃ seg ∈ s.snake, seg.x = (nextHead s).x ∧ seg.y = (nextHead s).y)) := by
  rw [collision_iff]
  rintro (h | h)
  · exact h hin
  · exact hnc h

lemma mem_of_getLast?_eq {α : Type} {l : List α} {a : α}
    (h : l.getLast? = some a) : a ∈ l := by
  have hd : l.dropLast ++ [a] = l :=
    List.dropLast_append_getLast? a (Option.mem_def.mpr h)
  rw [← hd]
  simp

/-! ### Concrete states used by counterexamples and witnesses -/

/-- A Running state as established by a previous tick: the snake heads
right with committed direction `(1, 0)`. -/
def cexDirState : GameState :=
  { snake := [⟨10, 10⟩, ⟨9, 10⟩]
    food := ⟨15, 15⟩
    direction := ⟨1, 0⟩
    score := 1
    gameOver := false
    isPlaying := true }

/-- The spec's wall scenario: snake `[(0,10),(1,10)]` heading left. -/
def wallState : GameState :=
  { snake := [⟨0, 10⟩, ⟨1, 10⟩]
    food := ⟨15, 15⟩
    direction := ⟨-1, 0⟩
    score := 1
    gameOver := false
    isPlaying := true }

/-- The spec's eating scenario: snake `[(10,10)]` heading right onto the
food at `(11,10)`. -/
def eatState : GameState :=
  { snake := [⟨10, 10⟩]
    food := ⟨11, 10⟩
    direction := ⟨1, 0⟩
    score := 0
    gameOver := false
    isPlaying := true }

/-- A Running state about to make an ordinary (non-eating) move. -/
def plainState : GameState :=
  { snake := [⟨5, 5⟩, ⟨4, 5⟩]
    food := ⟨15, 15⟩
    direction := ⟨1, 0⟩
    score := 1
    gameOver := false
    isPlaying := true }

/-- A Running state whose shifted head lands on the snake's tail cell. -/
def tailState : GameState :=
  { snake := [⟨5, 5⟩, ⟨5, 6⟩]
    food := ⟨15, 15⟩
    direction := ⟨0, 1⟩
    score := 1
    gameOver := false
    isPlaying := true }

/-- A Running state whose next tick visibly moves the snake. -/
def frameState : GameState :=
  { snake := [⟨5, 5⟩]
    food := ⟨15, 15⟩
    direction := ⟨1, 0⟩
    score := 0
    gameOver := false
    isPlaying := true }

/-! ### The claims -/

/-- C1, counterexample. From the committed direction `(1, 0)` in a
Running state, the request sequence Up then Left ends with the direction
at `(-1, 0)`: the second request, the exact opposite of the committed
direction, is accepted rather than rejected, because each accepted
request immediately overwrites the value later requests are judged
against — there is no pending-direction buffer. The next tick then moves
the head onto the neck and ends the game, the reversal the claim says is
prevented. -/
theorem C1_counterexample :
    (handleKeyPress (handleKeyPress cexDirState .ArrowUp) .ArrowLeft).direction.x =
        -cexDirState.direction.x ∧
    (handleKeyPress (handleKeyPress cexDirState .ArrowUp) .ArrowLeft).direction.y =
        -cexDirState.direction.y ∧
    (moveSnake (handleKeyPress (handleKeyPress cexDirState .ArrowUp) .ArrowLeft)
        (0, 0)).gameOver = true := by
  decide

/-- C1, amended. A single `setDirection` request `d` against the current
(unit-vector) committed direction leaves the direction at `d` unless `d`
is the exact opposite of the committed direction, in which case the
direction is unchanged; but there is no pending buffer: an accepted
request immediately becomes the direction later requests are judged
against, so the guard holds only request-by-request, not against the
direction committed at the previous tick. -/
theorem C1_amended (s : GameState) (k : Key) (d : Cell)
    (hp : s.isPlaying = true) (hd : keyDir k = some d)
    (hdir : s.direction = ⟨1, 0⟩ ∨ s.direction = ⟨-1, 0⟩ ∨
      s.direction = ⟨0, 1⟩ ∨ s.direction = ⟨0, -1⟩) :
    (handleKeyPress s k).direction =
      if d.x = -s.direction.x ∧ d.y = -s.direction.y then s.direction else d := by
  cases k <;> simp only [keyDir, Option.some.injEq, reduceCtorEq] at hd <;>
    (try subst hd) <;> rcases hdir with h | h | h | h <;>
    simp [handleKeyPress, hp, h]

/-- Witness for the amended C1: in a Running state with committed
direction `(1, 0)`, a single Left request (the exact opposite) is
rejected and the direction stays `(1, 0)`. -/
theorem C1_amended_witness :
    cexDirState.isPlaying = true ∧
    (handleKeyPress cexDirState .ArrowLeft).direction =
      if (⟨-1, 0⟩ : Cell).x = -cexDirState.direction.x ∧
          (⟨-1, 0⟩ : Cell).y = -cexDirState.direction.y then cexDirState.direction
      else ⟨-1, 0⟩ :=
  ⟨rfl, C1_amended cexDirState .ArrowLeft ⟨-1, 0⟩ rfl rfl (Or.inl rfl)⟩

/-- C2. On a Running state whose shifted head leaves the `[0,20) × [0,20)`
grid or equals an existing body cell of the pre-tick snake, the tick only
flips the phase to Over: the snake, the food and the score keep their
pre-tick values. -/
theorem C2_collision_terminal (s : GameState) (r : Rand)
    (hp : s.isPlaying = true)
    (h : ¬ inGrid (nextHead s) ∨ nextHead s ∈ s.snake) :
    (moveSnake s r).phase = .Over ∧ (moveSnake s r).snake = s.snake ∧
    (moveSnake s r).food = s.food ∧ (moveSnake s r).score = s.score := by
  have hcond := (collision_iff s).mpr h
  unfold moveSnake
  rw [if_pos hcond]
  exact ⟨rfl, rfl, rfl, rfl⟩

/-- Witness for C2 on the spec's wall scenario: snake
`[(0,10),(1,10)]` heading left runs its head to `(-1,10)`, out of
bounds, and the tick ends the game with no other mutation. -/
theorem C2_witness :
    wallState.isPlaying = true ∧
    (¬ inGrid (nextHead wallState) ∨ nextHead wallState ∈ wallState.snake) ∧
    ((moveSnake wallState (0, 0)).phase = .Over ∧
      (moveSnake wallState (0, 0)).snake = wallState.snake ∧
      (moveSnake wallState (0, 0)).food = wallState.food ∧
      (moveSnake wallState (0, 0)).score = wallState.score) :=
  ⟨rfl, by decide, C2_collision_terminal wallState (0, 0) rfl (by decide)⟩

/-- C3, counterexample. On the claim's own scenario — 20×20 grid, snake
`[(10,10)]`, direction `(1,0)`, food `(11,10)` — one tick grows the snake
to `[(11,10),(10,10)]` (length 2, as the claim's general growth clause
demands), not to the claimed `[(11,10)]`; score and phase behave as
claimed. -/
theorem C3_counterexample :
    (moveSnake eatState (0, 0)).snake = [⟨11, 10⟩, ⟨10, 10⟩] ∧
    (moveSnake eatState (0, 0)).snake ≠ [⟨11, 10⟩] ∧
    (moveSnake eatState (0, 0)).score = 1 ∧
    (moveSnake eatState (0, 0)).phase = .Running := by
  decide

/-- C3, amended. A tick that moves the head onto the food (with no
collision) increments the score by exactly 1, grows the snake by exactly
one cell (new head prepended, tail kept), resamples the food from the
supplied random draw, and keeps the phase Running; the resampling range
is the full `20 × 20` grid with no exclusion of snake-occupied cells
(every grid cell is reachable by some draw). On the claim's scenario the
resulting snake is `[(11,10),(10,10)]`, not `[(11,10)]`. -/
theorem C3_eat_grows (s : GameState) (r : Rand)
    (hp : s.isPlaying = true)
    (hin : inGrid (nextHead s)) (hnc : nextHead s ∉ s.snake)
    (hf : nextHead s = s.food) :
    (moveSnake s r).score = s.score + 1 ∧
    (moveSnake s r).snake = nextHead s :: s.snake ∧
    (moveSnake s r).snake.length = s.snake.length + 1 ∧
    (moveSnake s r).food = getRandomPosition r ∧
    (moveSnake s r).phase = .Running ∧
    (∀ c : Cell, inGrid c → ∃ q : Rand, InUnit q ∧ getRandomPosition q = c) := by
  have hfcond : (nextHead s).x = s.food.x ∧ (nextHead s).y = s.food.y := by
    rw [hf]
    exact ⟨rfl, rfl⟩
  unfold moveSnake
  rw [if_neg (no_collision_cond s hin hnc), if_pos hfcond]
  refine ⟨rfl, rfl, by simp, rfl, ?_, getRandomPosition_surj⟩
  unfold GameState.phase
  simp [hp]

/-- Witness for the amended C3 at the spec's eating scenario. -/
theorem C3_witness :
    eatState.isPlaying = true ∧ inGrid (nextHead eatState) ∧
    nextHead eatState ∉ eatState.snake ∧ nextHead eatState = eatState.food ∧
    ((moveSnake eatState (0, 0)).score = eatState.score + 1 ∧
      (moveSnake eatState (0, 0)).snake = nextHead eatState :: eatState.snake ∧
      (moveSnake eatState (0, 0)).snake.length = eatState.snake.length + 1 ∧
      (moveSnake eatState (0, 0)).food = getRandomPosition (0, 0) ∧
      (moveSnake eatState (0, 0)).phase = .Running ∧
      (∀ c : Cell, inGrid c → ∃ q : Rand, InUnit q ∧ getRandomPosition q = c)) :=
  ⟨rfl, by decide, by decide, by decide,
    C3_eat_grows eatState (0, 0) rfl (by decide) (by decide) (by decide)⟩

/-- C4. A tick that neither eats nor collides keeps the snake's length,
moves the head by exactly one unit in the committed direction (new head
prepended, last cell removed), and leaves the score and the food
unchanged. -/
theorem C4_plain_move (s : GameState) (r : Rand)
    (hp : s.isPlaying = true) (hne : s.snake ≠ [])
    (hin : inGrid (nextHead s)) (hnc : nextHead s ∉ s.snake)
    (hf : nextHead s ≠ s.food) :
    (moveSnake s r).snake = (nextHead s :: s.snake).dropLast ∧
    (moveSnake s r).snake.length = s.snake.length ∧
    (moveSnake s r).snake.headI = nextHead s ∧
    (moveSnake s r).score = s.score ∧
    (moveSnake s r).food = s.food := by
  have hfcond : ¬ ((nextHead s).x = s.food.x ∧ (nextHead s).y = s.food.y) := by
    rintro ⟨hx, hy⟩
    apply hf
    show (⟨(nextHead s).x, (nextHead s).y⟩ : Cell) = s.food
    rw [hx, hy]
  unfold moveSnake
  rw [if_neg (no_collision_cond s hin hnc), if_neg hfcond]
  refine ⟨rfl, ?_, ?_, rfl, rfl⟩
  · simp
  · cases hsn : s.snake with
    | nil => exact absurd hsn hne
    | cons a l =>
      simp [List.dropLast_cons₂]

/-- Witness for C4 on a concrete non-eating move. -/
theorem C4_witness :
    plainState.isPlaying = true ∧ plainState.snake ≠ [] ∧
    inGrid (nextHead plainState) ∧ nextHead plainState ∉ plainState.snake ∧
    nextHead plainState ≠ plainState.food ∧
    ((moveSnake plainState (0, 0)).snake = (nextHead plainState :: plainState.snake).dropLast ∧
      (moveSnake plainState (0, 0)).snake.length = plainState.snake.length ∧
      (moveSnake plainState (0, 0)).snake.headI = nextHead plainState ∧
      (moveSnake plainState (0, 0)).score = plainState.score ∧
      (moveSnake plainState (0, 0)).food = plainState.food) :=
  ⟨rfl, by decide, by decide, by decide, by decide,
    C4_plain_move plainState (0, 0) rfl (by decide) (by decide) (by decide) (by decide)⟩

/-- C5. In every state reachable from `startGame` through any sequence
of ticks and key presses, the snake has no duplicate cells and has
length at least 1 — in every phase, so in particular while Running, and
no duplicate outlives the Over transition (the snake is left unchanged
by it). -/
theorem C5_snake_nodup {s : GameState} (h : Reachable s) :
    s.snake.Nodup ∧ 1 ≤ s.snake.length :=
  ⟨(reachable_inv h).1, (reachable_inv h).2.1⟩

/-- Witness for C5 at the state produced by a fresh `startGame`. -/
theorem C5_witness :
    (startGame initState (0, 0)).snake.Nodup ∧
    1 ≤ (startGame initState (0, 0)).snake.length :=
  C5_snake_nodup (Reachable.start initState (0, 0) (by norm_num [InUnit]))

/-- C6. `startGame`, called in any Idle or Over state, yields the fixed
fresh state: a length-1 snake at the origin `(10,10)`, direction
`(1,0)`, food resampled from the supplied draw, score 0, phase Running;
and its result does not depend on the state it was called in. -/
theorem C6_start_reset (s t : GameState) (r : Rand)
    (h : s.phase = .Idle ∨ s.phase = .Over) :
    startGame s r =
      { snake := [⟨10, 10⟩]
        direction := ⟨1, 0⟩
        food := getRandomPosition r
        score := 0
        gameOver := false
        isPlaying := true } ∧
    (startGame s r).phase = .Running ∧ startGame s r = startGame t r :=
  ⟨rfl, rfl, rfl⟩

/-- Witness for C6: `startGame` from the initial Idle state. -/
theorem C6_witness :
    (initState.phase = Phase.Idle ∨ initState.phase = Phase.Over) ∧
    (startGame initState (0, 0) =
        { snake := [⟨10, 10⟩]
          direction := ⟨1, 0⟩
          food := getRandomPosition (0, 0)
          score := 0
          gameOver := false
          isPlaying := true } ∧
      (startGame initState (0, 0)).phase = .Running ∧
      startGame initState (0, 0) = startGame wallState (0, 0)) :=
  ⟨Or.inl rfl, C6_start_reset initState wallState (0, 0) (Or.inl rfl)⟩

/-- C7. On a Running state with at least two segments whose shifted head
equals the snake's current tail cell, the tick ends the game: the
self-collision test scans every cell of the pre-tick snake, including
the tail a non-eating move would have vacated this same tick. -/
theorem C7_tail_collision (s : GameState) (r : Rand)
    (hp : s.isPlaying = true) (hlen : 2 ≤ s.snake.length)
    (htail : s.snake.getLast? = some (nextHead s)) :
    (moveSnake s r).phase = .Over ∧ (moveSnake s r).snake = s.snake ∧
    (moveSnake s r).food = s.food ∧ (moveSnake s r).score = s.score := by
  have hmem : nextHead s ∈ s.snake := mem_of_getLast?_eq htail
  have hcond := (collision_iff s).mpr (Or.inr hmem)
  unfold moveSnake
  rw [if_pos hcond]
  exact ⟨rfl, rfl, rfl, rfl⟩

/-- Witness for C7: a length-2 snake turning straight onto its tail. -/
theorem C7_witness :
    tailState.isPlaying = true ∧ 2 ≤ tailState.snake.length ∧
    tailState.snake.getLast? = some (nextHead tailState) ∧
    ((moveSnake tailState (0, 0)).phase = .Over ∧
      (moveSnake tailState (0, 0)).snake = tailState.snake ∧
      (moveSnake tailState (0, 0)).food = tailState.food ∧
      (moveSnake tailState (0, 0)).score = tailState.score) :=
  ⟨rfl, by decide, by decide, C7_tail_collision tailState (0, 0) rfl (by decide) (by decide)⟩

/-- C8, counterexample. In the periodic callback the canvas is cleared
and the snake and food are drawn from the state *before* the tick, and
only then does the tick run: at a concrete Running state the frame the
callback draws is the pre-tick frame and differs from the frame of the
post-tick state, refuting the claim that each frame depicts the state
produced by that callback's tick. -/
theorem C8_counterexample :
    (updateGame frameState (0, 0)).1 =
      DrawEvent.clearRect 0 0 CANVAS_SIZE CANVAS_SIZE ::
        (drawSnake frameState.snake ++ drawFood frameState.food) ∧
    (updateGame frameState (0, 0)).2.snake = [⟨6, 5⟩] ∧
    (updateGame frameState (0, 0)).1 ≠
      DrawEvent.clearRect 0 0 CANVAS_SIZE CANVAS_SIZE ::
        (drawSnake (updateGame frameState (0, 0)).2.snake ++
          drawFood (updateGame frameState (0, 0)).2.food) := by
  decide

/-- C8, amended. Every periodic callback first clears the sink, then
draws every snake cell and the food cell of the state as it was when the
callback began — the pre-tick state — and runs the tick after drawing,
so each frame depicts the previous tick's outcome, one tick behind the
claim's "post-tick" reading; the mount effect draws the initial idle
snake and food once (without a clear). -/
theorem C8_amended (s : GameState) (r : Rand) :
    (updateGame s r).1 =
      DrawEvent.clearRect 0 0 CANVAS_SIZE CANVAS_SIZE ::
        (drawSnake s.snake ++ drawFood s.food) ∧
    (updateGame s r).2 = moveSnake s r ∧
    mountDraw = drawSnake initState.snake ++ drawFood initState.food :=
  ⟨rfl, rfl, rfl⟩

/-- C9. In every state reachable from `startGame` through any sequence
of ticks and key presses, the score is exactly the snake's length minus
one: `startGame` establishes score 0 with a length-1 snake, and the
snake grows by one cell exactly on the ticks that increment the score. -/
theorem C9_score_length {s : GameState} (h : Reachable s) :
    s.score + 1 = s.snake.length :=
  (reachable_inv h).2.2.1

/-- Witness for C9 at the state produced by a fresh `startGame`. -/
theorem C9_witness :
    (startGame initState (1/2, 1/2)).score + 1 =
      (startGame initState (1/2, 1/2)).snake.length :=
  C9_score_length (Reachable.start initState (1/2, 1/2) (by norm_num [InUnit]))

/-- C10. In every state reachable from `startGame` through any sequence
of ticks and key presses, every snake cell and the food lie in
`[0,20) × [0,20)`: a head leaving the grid ends the game before being
added to the body, the origin `(10,10)` is in bounds, and food
resampling draws both coordinates from `[0,20)`. -/
theorem C10_in_grid {s : GameState} (h : Reachable s) :
    (∀ c ∈ s.snake, inGrid c) ∧ inGrid s.food :=
  ⟨(reachable_inv h).2.2.2.1, (reachable_inv h).2.2.2.2⟩

/-- Witness for C10 at the state produced by a fresh `startGame`. -/
theorem C10_witness :
    (∀ c ∈ (startGame initState (0, 1/2)).snake, inGrid c) ∧
    inGrid (startGame initState (0, 1/2)).food :=
  C10_in_grid (Reachable.start initState (0, 1/2) (by norm_num [InUnit]))

end Snake
